import Mathlib

/-!
Verification development for the session/topology state machine of the
nordeck/lib-jitsi-meet conferencing client (the `JitsiConference` class and its
P2P/JVB switching logic).  The TypeScript/JavaScript code is shallowly embedded:
the mutable `JitsiConference` object becomes an explicit state record, event
handlers become state-transition functions returning the new state together
with a list of observable effects (session invites/terminations, media-transfer
toggles, emitted events, scheduled timers), and JavaScript strings become lists
of UTF-16 code units.  Only the fields and collaborator calls that the verified
properties depend on are carried in the state; calls whose only purpose is
logging or analytics are not modelled.
-/

namespace LibJitsiMeet

/-- JavaScript string comparison `a < b` on UTF-16 code units: lexicographic
order where a strict prefix is smaller.  Ids and JIDs are modelled as lists of
code units. -/
def jsStrLt : List Nat → List Nat → Bool
  | [], [] => false
  | [], _ :: _ => true
  | _ :: _, [] => false
  | a :: as, b :: bs =>
    if a < b then true
    else if b < a then false
    else jsStrLt as bs

/-- The strict order `jsStrLt` is irreflexive. -/
theorem jsStrLt_irrefl (a : List Nat) : jsStrLt a a = false := by
  induction a with
  | nil => rfl
  | cons x xs ih => simp [jsStrLt, ih]

/-- The strict order `jsStrLt` is asymmetric. -/
theorem jsStrLt_asymm (a b : List Nat) (h : jsStrLt a b = true) : jsStrLt b a = false := by
  induction a generalizing b with
  | nil =>
    cases b with
    | nil => simp [jsStrLt] at h
    | cons y ys => rfl
  | cons x xs ih =>
    cases b with
    | nil => simp [jsStrLt] at h
    | cons y ys =>
      by_cases hxy : x < y
      · have hyx : ¬ y < x := Nat.lt_asymm hxy
        simp [jsStrLt, hxy, hyx, Nat.lt_irrefl]
      · by_cases hyx : y < x
        · simp [jsStrLt, hxy, hyx] at h
        · have hx : x = y := Nat.le_antisymm (Nat.le_of_not_lt hyx) (Nat.le_of_not_lt hxy)
          subst hx
          simp only [jsStrLt, if_neg hxy, if_neg hyx] at h ⊢
          exact ih ys h

/-- The strict order `jsStrLt` is total on distinct lists. -/
theorem jsStrLt_total (a b : List Nat) (h : a ≠ b) :
    jsStrLt a b = true ∨ jsStrLt b a = true := by
  induction a generalizing b with
  | nil =>
    cases b with
    | nil => exact absurd rfl h
    | cons y ys => left; rfl
  | cons x xs ih =>
    cases b with
    | nil => right; rfl
    | cons y ys =>
      by_cases hxy : x < y
      · left; simp [jsStrLt, hxy]
      · by_cases hyx : y < x
        · right; simp [jsStrLt, hyx]
        · have hx : x = y := Nat.le_antisymm (Nat.le_of_not_lt hyx) (Nat.le_of_not_lt hxy)
          subst hx
          have hne : xs ≠ ys := by
            intro hcontra
            exact h (by rw [hcontra])
          rcases ih ys hne with htrue | htrue
          · left; simp [jsStrLt, Nat.lt_irrefl, htrue]
          · right; simp [jsStrLt, Nat.lt_irrefl, htrue]

/-- Media kinds handled by the conference (service/RTC/MediaType). -/
inductive MediaType
  | audio
  | video
  deriving DecidableEq, Repr

/-- Video sub-types advertised in presence (service/RTC/VideoType). -/
inductive VideoType
  | camera
  | desktop
  | noneType
  deriving DecidableEq, Repr

/-- The bot-type value `poltergeist` which `_shouldBeInP2PMode` checks. -/
def poltergeistBotType : String := "poltergeist"

/-- The jigasi feature flag `FEATURE_JIGASI` used by `_shouldBeInP2PMode`. -/
def FEATURE_JIGASI : String := "http://jitsi.org/protocol/jigasi"

/-- Remote participant entry of the roster (interface of `JitsiParticipant`:
only the getters consumed by the conference code are modelled). -/
structure JitsiParticipant where
  pid : List Nat
  pjid : List Nat
  botType : Option String
  features : List String
  hidden : Bool
  deriving DecidableEq, Repr

/-- Getter `JitsiParticipant.getId`. -/
def JitsiParticipant.getId (p : JitsiParticipant) : List Nat := p.pid

/-- Getter `JitsiParticipant.getJid`. -/
def JitsiParticipant.getJid (p : JitsiParticipant) : List Nat := p.pjid

/-- Getter `JitsiParticipant.getBotType`. -/
def JitsiParticipant.getBotType (p : JitsiParticipant) : Option String := p.botType

/-- Test `JitsiParticipant.hasFeature`. -/
def JitsiParticipant.hasFeature (p : JitsiParticipant) (f : String) : Bool :=
  p.features.contains f

/-- Test `JitsiParticipant.isHidden`. -/
def JitsiParticipant.isHidden (p : JitsiParticipant) : Bool := p.hidden

/-- Local track (interface of `JitsiLocalTrack`: the getters used by
`addTrack` and `_updateRoomPresence`).  `tid` stands for the object identity
used by the JavaScript `===` comparisons. -/
structure JitsiLocalTrack where
  tid : Nat
  mediaType : MediaType
  videoType : VideoType
  sourceName : String
  muted : Bool
  deriving DecidableEq, Repr

/-- Getter `JitsiTrack.getType`. -/
def JitsiLocalTrack.getType (t : JitsiLocalTrack) : MediaType := t.mediaType

/-- Getter `JitsiTrack.getVideoType`. -/
def JitsiLocalTrack.getVideoType (t : JitsiLocalTrack) : VideoType := t.videoType

/-- Getter `JitsiTrack.isMuted`. -/
def JitsiLocalTrack.isMuted (t : JitsiLocalTrack) : Bool := t.muted

/-- Getter `JitsiTrack.getSourceName`. -/
def JitsiLocalTrack.getSourceName (t : JitsiLocalTrack) : String := t.sourceName

/-- Jingle media session (interface of `JingleSessionPC`: the fields read by
the conference).  `sid` stands for the object identity used by the JavaScript
`===` comparisons; `localTracks` models `peerconnection.getLocalTracks()`. -/
structure JingleSessionPC where
  sid : Nat
  isP2P : Bool
  isInitiator : Bool
  remoteJid : List Nat
  localTracks : List JitsiLocalTrack
  deriving DecidableEq, Repr

/-- Jingle session-terminate reason values (XEP-0166) used by the embedded
code paths. -/
inductive JingleReason
  | success
  | connectivityError
  | decline
  | busy
  | securityError
  deriving DecidableEq, Repr

/-- Conference-fatal error kinds (`JitsiConferenceErrors`) used by the
embedded code paths. -/
inductive ConferenceError
  | iceFailed
  | offerAnswerFailed
  deriving DecidableEq, Repr

/-- Advertised per-source presence state held by the signaling layer.
Modelled from the spec: `SignalingLayerImpl` (modules/xmpp/SignalingLayerImpl
is not among the sources) stores, per source name, the advertised mute status
and video type, and its setters report whether the presence actually
changed. -/
structure SignalingLayerState where
  muteStatus : List (String × Bool)
  videoTypeOf : List (String × VideoType)
  deriving DecidableEq, Repr

/-- Modelled from the spec: `SignalingLayerImpl.setTrackMuteStatus` records
the advertised mute status for a source name and returns whether presence
changed. -/
def SignalingLayerState.setTrackMuteStatus (st : SignalingLayerState) (sourceName : String)
    (muted : Bool) : SignalingLayerState × Bool :=
  if st.muteStatus.lookup sourceName = some muted then (st, false)
  else
    ({ st with muteStatus :=
        (sourceName, muted) :: st.muteStatus.eraseP (fun kv => kv.1 == sourceName) },
     true)

/-- Modelled from the spec: `SignalingLayerImpl.setTrackVideoType` records
the advertised video type for a source name and returns whether presence
changed. -/
def SignalingLayerState.setTrackVideoType (st : SignalingLayerState) (sourceName : String)
    (videoType : VideoType) : SignalingLayerState × Bool :=
  if st.videoTypeOf.lookup sourceName = some videoType then (st, false)
  else
    ({ st with videoTypeOf :=
        (sourceName, videoType) :: st.videoTypeOf.eraseP (fun kv => kv.1 == sourceName) },
     true)

/-- The pending deferred "start P2P" timer (`this.deferredStartP2PTask`),
carrying the argument and delay that `setTimeout` was given. -/
structure DeferredStartP2P where
  jid : List Nat
  delaySeconds : Nat
  deriving DecidableEq, Repr

/-- Observable effects of the conference transition functions: outbound
signaling, media-pipeline commands, emitted events and timer commands. -/
inductive Effect
  | inviteP2P (jid : List Nat)
  | deferP2PStart (jid : List Nat) (delaySeconds : Nat)
  | clearDeferredStartP2P
  | terminateP2PSession (reason : JingleReason) (sendSessionTerminate : Bool)
  | terminateIncomingSession (sid : Nat) (reason : JingleReason)
  | acceptP2POffer (sid : Nat)
  | acceptJvbOffer (sid : Nat)
  | removeRemoteJVBTracks
  | addRemoteJVBTracks
  | removeRemoteP2PTracks
  | addRemoteP2PTracks
  | setJvbMediaTransferActive (active : Bool)
  | scheduleIceRestart (delay : ℚ)
  | startIceFailedHandling (sid : Nat)
  | emitConferenceFailed (err : ConferenceError)
  | emitP2PStatusChanged (status : Bool)
  | emitConnectionEstablishedEvent
  | sendPresence
  | addTracksToSession (sessionSid : Nat) (trackTid : Nat)
  | replaceTrackOnSessions (trackTid : Nat)
  | closeSession (sid : Nat)
  | cancelDelayedIceFailed
  | clearSessionInitiateTimeout
  | roomLeave
  deriving DecidableEq, Repr

/-- State of the `JitsiConference` object: the fields of the class that the
embedded handlers read or write, with configuration accessors flattened to
booleans (`isP2PEnabled()`, `isP2PTestModeEnabled()`, `browser.isFirefox()`,
`isE2EEEnabled()`, the `testing.forceInitiator/forceResponder/
allowMultipleTracks` flags).  `delayedIceFailed = some b` models a non-null
`_delayedIceFailed` whose `canceled` flag is `b`; `roomJoined` models
`this.room !== null`; `focusMembers` models `room.members` restricted to the
`isFocus` flag; `rtcLocalTracks` models the RTC module's local track
registry. -/
structure JitsiConference where
  myUserId : List Nat
  participants : List JitsiParticipant
  p2pJingleSession : Option JingleSessionPC
  jvbJingleSession : Option JingleSessionPC
  p2p : Bool
  isP2PConnectionInterrupted : Bool
  isJvbConnectionInterrupted : Bool
  deferredStartP2PTask : Option DeferredStartP2P
  sessionInitiateTimeout : Bool
  delayedIceFailed : Option Bool
  iceRestarts : Nat
  hasVisitors : Bool
  transcribingEnabled : Bool
  backToP2PDelay : Nat
  p2pConfigEnabled : Bool
  p2pTestMode : Bool
  isFirefoxBrowser : Bool
  firefoxP2pEnabled : Bool
  e2eeEnabled : Bool
  forceInitiator : Bool
  forceResponder : Bool
  allowMultipleTracks : Bool
  roomJoined : Bool
  focusMembers : List (List Nat × Bool)
  signalingLayer : SignalingLayerState
  rtcLocalTracks : List JitsiLocalTrack
  nextSessionId : Nat
  deriving DecidableEq, Repr

/-- Accessor `isP2PActive()`: the conference is in P2P mode iff the `p2p`
flag is set. -/
def isP2PActive (c : JitsiConference) : Bool := c.p2p

/-- Accessor `isP2PEnabled()` with the configuration flattened to the
boolean `p2pConfigEnabled`. -/
def isP2PEnabled (c : JitsiConference) : Bool := c.p2pConfigEnabled

/-- Accessor `isP2PTestModeEnabled()`. -/
def isP2PTestModeEnabled (c : JitsiConference) : Bool := c.p2pTestMode

/-- Accessor `getParticipants()` (the values of the `participants` map). -/
def getParticipants (c : JitsiConference) : List JitsiParticipant := c.participants

/-- Accessor `getParticipantCount(countHidden)`: remote participants
(optionally without the hidden ones) plus one for the local participant. -/
def getParticipantCount (c : JitsiConference) (countHidden : Bool) : Nat :=
  let participants := getParticipants c
  let participants := if !countHidden then participants.filter (fun p => !p.isHidden) else participants
  participants.length + 1

/-- Accessor `getParticipantById(id)` over the roster map. -/
def getParticipantById (c : JitsiConference) (id : List Nat) : Option JitsiParticipant :=
  c.participants.find? (fun p => p.getId == id)

/-- Helper `Strophe.getResourceFromJid`: the part of a full JID after the
first slash (code unit 47). -/
def getResourceFromJid (jid : List Nat) : List Nat :=
  (jid.dropWhile (fun code => code ≠ 47)).drop 1

/-- Accessor `isFocus(mucJid)`: `room.isFocus` looks the member up and
returns its focus flag, `null` (here `none`) when the member or the room is
missing. -/
def isFocus (c : JitsiConference) (mucJid : List Nat) : Option Bool :=
  if c.roomJoined then c.focusMembers.lookup mucJid else none

/-- Embeds `_maybeClearDeferredStartP2P()`: clears the deferred start-P2P
timer when it is scheduled. -/
def _maybeClearDeferredStartP2P (c : JitsiConference) : JitsiConference × List Effect :=
  match c.deferredStartP2PTask with
  | some _ => ({ c with deferredStartP2PTask := none }, [Effect.clearDeferredStartP2P])
  | none => (c, [])

/-- Embeds `_setP2PStatus(newStatus)`: updates the `p2p` flag and emits the
status-changed event, doing nothing when the status is unchanged (analytics
and the lastN video-transfer sync are not modelled). -/
def _setP2PStatus (c : JitsiConference) (newStatus : Bool) : JitsiConference × List Effect :=
  if c.p2p == newStatus then (c, [])
  else ({ c with p2p := newStatus }, [Effect.emitP2PStatusChanged newStatus])

/-- Embeds `_shouldBeInP2PMode()`: exactly one remote peer, no poltergeist or
jigasi bot peer, no visitors (the source tests `!this._hasVisitors` twice)
and transcription not enabled. -/
def _shouldBeInP2PMode (c : JitsiConference) : Bool :=
  let peers := getParticipants c
  let peerCount := peers.length
  let hasBotPeer := peers.any (fun p =>
    p.getBotType == some poltergeistBotType || p.hasFeature FEATURE_JIGASI)
  peerCount == 1 && !hasBotPeer && !c.hasVisitors && !c.hasVisitors && !c.transcribingEnabled

/-- Embeds `xmpp.connection.jingle.newP2PJingleSession(myJid, remoteJid)`:
a fresh initiator-side P2P session object. -/
def newP2PJingleSession (c : JitsiConference) (remoteJid : List Nat) : JingleSessionPC :=
  { sid := c.nextSessionId
    isP2P := true
    isInitiator := true
    remoteJid := remoteJid
    localTracks := c.rtcLocalTracks }

/-- Embeds `_startP2PSession(remoteJid)`: clears the deferred start timer,
bails out when a P2P session already exists, otherwise creates the session
and sends the Jingle invite with the current local tracks. -/
def _startP2PSession (c : JitsiConference) (remoteJid : List Nat) : JitsiConference × List Effect :=
  let cleared := _maybeClearDeferredStartP2P c
  let c1 := cleared.1
  if c1.p2pJingleSession.isSome then (c1, cleared.2)
  else
    let s := newP2PJingleSession c1 remoteJid
    ({ c1 with
        isP2PConnectionInterrupted := false
        p2pJingleSession := some s
        nextSessionId := c1.nextSessionId + 1 },
     cleared.2 ++ [Effect.inviteP2P remoteJid])

/-- Embeds `_stopP2PSession(options)`: when a P2P session exists, resumes JVB
media transfer and removes the remote P2P tracks if the P2P connection had
been established, terminates the Jingle session with the given reason,
nulls the session reference, resets the `p2p` flag and re-adds the remote
JVB tracks. -/
def _stopP2PSession (c : JitsiConference) (reason : JingleReason) (requestRestart : Bool) :
    JitsiConference × List Effect :=
  match c.p2pJingleSession with
  | none => (c, [])
  | some s =>
    let wasP2PEstablished := isP2PActive c
    let effSwapOut :=
      if wasP2PEstablished then
        (if c.jvbJingleSession.isSome && !requestRestart then
          [Effect.setJvbMediaTransferActive true]
        else []) ++ [Effect.removeRemoteP2PTracks]
      else []
    let sendSessionTerminate :=
      c.roomJoined && (getParticipantById c (getResourceFromJid s.remoteJid)).isSome
    let c1 := { c with p2pJingleSession := none }
    let statusChanged := _setP2PStatus c1 false
    let effSwapIn :=
      if wasP2PEstablished then
        if c.jvbJingleSession.isSome && !requestRestart then [Effect.addRemoteJVBTracks]
        else []
      else []
    (statusChanged.1,
     effSwapOut ++ [Effect.terminateP2PSession reason sendSessionTerminate]
       ++ statusChanged.2 ++ effSwapIn)

/-- Embeds `_maybeStartOrStopP2P(userLeftEvent)`: the topology re-evaluation
which bails out when auto-P2P is unavailable, clears a stale deferred start
timer, starts (or defers, after a user-left event) a new P2P session when the
2-peer condition holds and the local id wins the lexicographic election, and
immediately stops an existing P2P session when the condition no longer
holds. -/
def _maybeStartOrStopP2P (c : JitsiConference) (userLeftEvent : Bool) :
    JitsiConference × List Effect :=
  if !(isP2PEnabled c) || isP2PTestModeEnabled c
      || (c.isFirefoxBrowser && !c.firefoxP2pEnabled) || c.e2eeEnabled then
    (c, [])
  else
    let peers := getParticipants c
    let shouldBeInP2P := _shouldBeInP2PMode c
    let cleared :=
      if !shouldBeInP2P && c.deferredStartP2PTask.isSome then _maybeClearDeferredStartP2P c
      else (c, [])
    let c1 := cleared.1
    if c1.p2pJingleSession.isNone && shouldBeInP2P then
      match peers.head? with
      | none => (c1, cleared.2)
      | some peer =>
        let myId := c1.myUserId
        let peersId := peer.getId
        let jid := peer.getJid
        if c1.forceInitiator then
          let started := _startP2PSession c1 jid
          (started.1, cleared.2 ++ started.2)
        else if c1.forceResponder then (c1, cleared.2)
        else if jsStrLt peersId myId then (c1, cleared.2)
        else if myId = peersId then (c1, cleared.2)
        else if userLeftEvent then
          if c1.deferredStartP2PTask.isSome then (c1, cleared.2)
          else
            ({ c1 with deferredStartP2PTask := some { jid := jid, delaySeconds := c1.backToP2PDelay } },
             cleared.2 ++ [Effect.deferP2PStart jid c1.backToP2PDelay])
        else
          let started := _startP2PSession c1 jid
          (started.1, cleared.2 ++ started.2)
    else if c1.p2pJingleSession.isSome && !shouldBeInP2P then
      let stopped := _stopP2PSession c1 JingleReason.success false
      (stopped.1, cleared.2 ++ stopped.2)
    else (c1, cleared.2)

/-- Modelled from the spec: the maximum ICE restart retry count
`MAX_CONNECTION_RETRIES` (service/connectivity/Constants is not among the
sources; the spec's scenario assumes the value 3). -/
def MAX_CONNECTION_RETRIES : Nat := 3

/-- Modelled from the spec: the backoff formula of `getJitterDelay`
(modules/util/Retry is not among the sources): base delay times the growth
factor 2 per attempt, scaled by one plus the random jitter fraction. -/
def getJitterDelay (retry : Nat) (minDelay : ℚ) (jitter : ℚ) : ℚ :=
  minDelay * 2 ^ retry * (1 + jitter)

/-- Embeds `_onIceConnectionFailed(session)`: a P2P failure immediately stops
the P2P session with reason `connectivity-error`; a failure of the current
JVB session schedules a delayed ICE restart while retries remain and
otherwise emits the fatal `CONFERENCE_FAILED`/`ICE_FAILED` event.  `jitter`
stands for the random fraction drawn inside `getJitterDelay`. -/
def _onIceConnectionFailed (c : JitsiConference) (session : JingleSessionPC) (jitter : ℚ) :
    JitsiConference × List Effect :=
  if session.isP2P then
    _stopP2PSession c JingleReason.connectivityError false
  else if c.jvbJingleSession = some session ∧ c.iceRestarts < MAX_CONNECTION_RETRIES then
    ({ c with delayedIceFailed := some false },
     [Effect.scheduleIceRestart (getJitterDelay c.iceRestarts 1000 jitter)])
  else if c.jvbJingleSession = some session then
    (c, [Effect.emitConferenceFailed ConferenceError.iceFailed])
  else (c, [])

/-- Embeds the `setTimeout` callback scheduled by `_onIceConnectionFailed`
for the JVB case: starts the delayed ICE-failed handling and increments the
restart counter. -/
def _fireDelayedIceFailed (c : JitsiConference) (session : JingleSessionPC) :
    JitsiConference × List Effect :=
  ({ c with iceRestarts := c.iceRestarts + 1 }, [Effect.startIceFailedHandling session.sid])

/-- Embeds `_onIceConnectionEstablished(jingleSession)` (establishment-time
analytics are not modelled): ignores JVB sessions and stale P2P session
instances, otherwise sets the P2P status, swaps the remote JVB tracks for
the remote P2P tracks and suspends media transfer over the JVB
connection. -/
def _onIceConnectionEstablished (c : JitsiConference) (jingleSession : JingleSessionPC) :
    JitsiConference × List Effect :=
  let done :=
    if !jingleSession.isP2P then true
    else if c.p2pJingleSession ≠ some jingleSession then true
    else false
  let effConn :=
    if jingleSession.isP2P == isP2PActive c then [Effect.emitConnectionEstablishedEvent] else []
  if done then (c, effConn)
  else
    let statusChanged := _setP2PStatus c true
    let c1 := statusChanged.1
    let effRemove := if c1.jvbJingleSession.isSome then [Effect.removeRemoteJVBTracks] else []
    let effSuspend :=
      if c1.jvbJingleSession.isSome then [Effect.setJvbMediaTransferActive false] else []
    (c1, effConn ++ statusChanged.2 ++ effRemove ++ [Effect.addRemoteP2PTracks] ++ effSuspend)

/-- Accessor `getActiveMediaSession()`: the P2P session when P2P is active,
the JVB session otherwise. -/
def getActiveMediaSession (c : JitsiConference) : Option JingleSessionPC :=
  if isP2PActive c then c.p2pJingleSession else c.jvbJingleSession

/-- Incoming Jingle offer as far as the conference inspects it: the `name`
attribute of its first `content` element (and nothing else is read on the
rejection paths). -/
structure JingleOffer where
  contentName : String
  deriving DecidableEq, Repr

/-- Content name value used by the unified-plan check. -/
def contentNameZero : String := "0"

/-- Content name value used by the unified-plan check. -/
def contentNameOne : String := "1"

/-- Embeds `_rejectIncomingCall(jingleSession, options)`: terminates the
offending session with the given reason (the warning log is not
modelled). -/
def _rejectIncomingCall (c : JitsiConference) (jingleSession : JingleSessionPC)
    (reason : JingleReason) : JitsiConference × List Effect :=
  (c, [Effect.terminateIncomingSession jingleSession.sid reason])

/-- Embeds `_acceptP2PIncomingCall(jingleSession, jingleOffer)`: stores the
session and answers the offer (initialization details and callbacks are
summarized by the accept effect). -/
def _acceptP2PIncomingCall (c : JitsiConference) (jingleSession : JingleSessionPC) :
    JitsiConference × List Effect :=
  ({ c with
      isP2PConnectionInterrupted := false
      p2pJingleSession := some jingleSession },
   [Effect.acceptP2POffer jingleSession.sid])

/-- Embeds `_maybeClearSITimeout()`: clears the session-initiate timeout only
when one is pending and either a JVB session exists or fewer than two
participants remain. -/
def _maybeClearSITimeout (c : JitsiConference) : JitsiConference × List Effect :=
  if c.sessionInitiateTimeout
      && (c.jvbJingleSession.isSome || getParticipantCount c false < 2) then
    ({ c with sessionInitiateTimeout := false }, [Effect.clearSessionInitiateTimeout])
  else (c, [])

/-- Embeds `_acceptJvbIncomingCall(jingleSession, jingleOffer, now)`: stores
the JVB session, clears the session-initiate timeout and answers the offer
(bridge channel setup, analytics and callbacks are summarized by the accept
effect). -/
def _acceptJvbIncomingCall (c : JitsiConference) (jingleSession : JingleSessionPC) :
    JitsiConference × List Effect :=
  let c1 := { c with jvbJingleSession := some jingleSession }
  let cleared := _maybeClearSITimeout c1
  (cleared.1, cleared.2 ++ [Effect.acceptJvbOffer jingleSession.sid])

/-- Embeds `_onIncomingCallP2P(jingleSession, jingleOffer)`: declines offers
from an endpoint in a different SDP mode, offers while P2P is unavailable,
duplicate offers (reason `busy`) and offers arriving while the conference
should not be in P2P mode; accepts otherwise. -/
def _onIncomingCallP2P (c : JitsiConference) (jingleSession : JingleSessionPC)
    (jingleOffer : JingleOffer) : JitsiConference × List Effect :=
  let contentName := jingleOffer.contentName
  let peerUsesUnifiedPlan := contentName == contentNameZero || contentName == contentNameOne
  let rejectReason : Option JingleReason :=
    if !peerUsesUnifiedPlan then some JingleReason.decline
    else if (!(isP2PEnabled c) && !(isP2PTestModeEnabled c))
        || (c.isFirefoxBrowser && !c.firefoxP2pEnabled) then some JingleReason.decline
    else if c.p2pJingleSession.isSome then some JingleReason.busy
    else if !(_shouldBeInP2PMode c) then some JingleReason.decline
    else none
  match rejectReason with
  | some reason => _rejectIncomingCall c jingleSession reason
  | none => _acceptP2PIncomingCall c jingleSession

/-- Embeds `onIncomingCall(jingleSession, jingleOffer, now)`: dispatches P2P
offers to `_onIncomingCallP2P` and rejects JVB offers whose sender is not the
conference focus with reason `security-error`. -/
def onIncomingCall (c : JitsiConference) (jingleSession : JingleSessionPC)
    (jingleOffer : JingleOffer) : JitsiConference × List Effect :=
  if jingleSession.isP2P then _onIncomingCallP2P c jingleSession jingleOffer
  else if !(isFocus c jingleSession.remoteJid == some true) then
    _rejectIncomingCall c jingleSession JingleReason.securityError
  else _acceptJvbIncomingCall c jingleSession

/-- Embeds `_setTrackMuteStatus(localTrack, isMuted)`: forwards to the
signaling layer and reports whether presence changed. -/
def _setTrackMuteStatus (c : JitsiConference) (localTrack : JitsiLocalTrack) (isMuted : Bool) :
    JitsiConference × Bool :=
  let result := c.signalingLayer.setTrackMuteStatus localTrack.getSourceName isMuted
  ({ c with signalingLayer := result.1 }, result.2)

/-- Embeds `_setNewVideoType(track)`: forwards to the signaling layer and
reports whether presence changed. -/
def _setNewVideoType (c : JitsiConference) (track : JitsiLocalTrack) :
    JitsiConference × Bool :=
  let result := c.signalingLayer.setTrackVideoType track.getSourceName track.getVideoType
  ({ c with signalingLayer := result.1 }, result.2)

/-- The context object of `_updateRoomPresence`, whose `skip` field marks a
pass whose presence update was already performed. -/
structure PresenceUpdateCtx where
  skip : Bool
  deriving DecidableEq, Repr

/-- The track loop of `_updateRoomPresence`: `muteStatusChanged` is
reassigned on every iteration while `videoTypeChanged` is reassigned only for
video tracks (JavaScript `var`-style carry of the previous value), and
`presenceChanged` accumulates by disjunction. -/
def _updateRoomPresenceLoop (c : JitsiConference) (tracks : List JitsiLocalTrack)
    (presenceChanged muteStatusChanged videoTypeChanged : Bool) : JitsiConference × Bool :=
  match tracks with
  | [] => (c, presenceChanged)
  | track :: rest =>
    let muted := track.isMuted
    let muteStep := _setTrackMuteStatus c track muted
    let videoStep :=
      if track.getType = MediaType.video then _setNewVideoType muteStep.1 track
      else (muteStep.1, videoTypeChanged)
    let _ := muteStatusChanged
    _updateRoomPresenceLoop videoStep.1 rest
      (presenceChanged || muteStep.2 || videoStep.2) muteStep.2 videoStep.2

/-- Embeds `_updateRoomPresence(jingleSession, ctx)`: bails out without a
session, skips the pass when the context is already marked, marks the
context, refreshes the advertised state of every local track of the session
and sends one presence packet iff something changed. -/
def _updateRoomPresence (c : JitsiConference) (jingleSession : Option JingleSessionPC)
    (ctx : Option PresenceUpdateCtx) :
    JitsiConference × Option PresenceUpdateCtx × List Effect :=
  match jingleSession with
  | none => (c, ctx, [])
  | some s =>
    match ctx with
    | some ctx0 =>
      if ctx0.skip then (c, some ctx0, [])
      else
        let looped := _updateRoomPresenceLoop c s.localTracks false false false
        (looped.1, some { skip := true },
         if looped.2 then [Effect.sendPresence] else [])
    | none =>
      let looped := _updateRoomPresenceLoop c s.localTracks false false false
      (looped.1, none, if looped.2 then [Effect.sendPresence] else [])

/-- Accessor `rtc.getLocalTracks(mediaType)`: the registered local tracks of
the given media type. -/
def getLocalTracksOfType (c : JitsiConference) (mediaType : MediaType) : List JitsiLocalTrack :=
  c.rtcLocalTracks.filter (fun t => t.getType == mediaType)

/-- Outcome of `addTrack`, distinguishing the promise resolved immediately
with the already-added track, a successful add of a further track, the
rejected second track of a type, and the first-track path that delegates to
`replaceTrack(null, track)`. -/
inductive AddTrackResult
  | resolvedSameTrack (t : JitsiLocalTrack)
  | addedSecondTrack
  | rejectedSecondTrack
  | addedFirstTrack
  deriving DecidableEq, Repr

/-- Embeds `addTrack(track)`: when a local track of the same media type
exists, resolves immediately if the given track is that track, otherwise
adds it to both sessions when multiple tracks of the kind are allowed
(renegotiation, registration and the presence pass) or rejects it; with no
track of the type present, delegates to `replaceTrack(null, track)` and
sends presence for desktop tracks (source-name assignment and the bridge
video-type message are not modelled). -/
def addTrack (c : JitsiConference) (track : JitsiLocalTrack) :
    JitsiConference × AddTrackResult × List Effect :=
  let mediaType := track.getType
  let localTracks := getLocalTracksOfType c mediaType
  match localTracks with
  | [] =>
    let c1 := { c with rtcLocalTracks := c.rtcLocalTracks ++ [track] }
    let effPresence :=
      if track.getVideoType = VideoType.desktop then
        let updated := _updateRoomPresence c1 (getActiveMediaSession c1) none
        (updated.1, updated.2.2)
      else (c1, [])
    (effPresence.1, AddTrackResult.addedFirstTrack,
     [Effect.replaceTrackOnSessions track.tid] ++ effPresence.2)
  | first :: _ =>
    if track = first then (c, AddTrackResult.resolvedSameTrack track, [])
    else if c.allowMultipleTracks
        || (mediaType == MediaType.video
          && !(localTracks.any (fun t => t.getVideoType == track.getVideoType))) then
      let effAdd :=
        (match c.p2pJingleSession with
          | some s => [Effect.addTracksToSession s.sid track.tid]
          | none => [])
        ++ (match c.jvbJingleSession with
          | some s => [Effect.addTracksToSession s.sid track.tid]
          | none => [])
      let c1 := { c with rtcLocalTracks := c.rtcLocalTracks ++ [track] }
      let updated := _updateRoomPresence c1 (getActiveMediaSession c1) none
      (updated.1, AddTrackResult.addedSecondTrack, effAdd ++ updated.2.2)
    else (c, AddTrackResult.rejectedSecondTrack, [])

/-- Embeds `leave(reason)` as far as the conference state machine is
concerned (reporter disposal, local track detach events, analytics and
listener deregistration are not modelled): cancels the delayed ICE-failed
handling when present, maybe clears the session-initiate timeout, closes and
nulls both Jingle sessions and leaves the room when still joined.  The
deferred start-P2P timer field is not touched by the source. -/
def leave (c : JitsiConference) : JitsiConference × List Effect :=
  let iceCancelled :=
    match c.delayedIceFailed with
    | some _ => ({ c with delayedIceFailed := some true }, [Effect.cancelDelayedIceFailed])
    | none => (c, [])
  let siCleared := _maybeClearSITimeout iceCancelled.1
  let c2 := siCleared.1
  let jvbClosed :=
    match c2.jvbJingleSession with
    | some s => ({ c2 with jvbJingleSession := none }, [Effect.closeSession s.sid])
    | none => (c2, [])
  let c3 := jvbClosed.1
  let p2pClosed :=
    match c3.p2pJingleSession with
    | some s => ({ c3 with p2pJingleSession := none }, [Effect.closeSession s.sid])
    | none => (c3, [])
  let c4 := p2pClosed.1
  let effBefore := iceCancelled.2 ++ siCleared.2 ++ jvbClosed.2 ++ p2pClosed.2
  if !c4.roomJoined then (c4, effBefore)
  else ({ c4 with roomJoined := false }, effBefore ++ [Effect.roomLeave])

/-- Tests whether an effect initiates P2P toward the given remote JID,
either by an immediate Jingle invite or by scheduling the deferred start. -/
def isInitiateEffect (jid : List Nat) : Effect → Bool
  | Effect.inviteP2P j => j == jid
  | Effect.deferP2PStart j _ => j == jid
  | _ => false

/-- The local endpoint initiates P2P toward the given JID: the topology
re-evaluation produces an invite or a deferred start for that JID. -/
def initiatesP2PToward (c : JitsiConference) (userLeftEvent : Bool) (jid : List Nat) : Bool :=
  ((_maybeStartOrStopP2P c userLeftEvent).2).any (isInitiateEffect jid)

/-- Precondition under which `_maybeStartOrStopP2P` reaches the leader
election: auto P2P available, no forced initiator or responder, no existing
P2P session, no pending deferred start, a single remote peer and the 2-peer
condition satisfied. -/
def P2PStartReady (c : JitsiConference) (peer : JitsiParticipant) : Prop :=
  isP2PEnabled c = true
    ∧ isP2PTestModeEnabled c = false
    ∧ (c.isFirefoxBrowser && !c.firefoxP2pEnabled) = false
    ∧ c.e2eeEnabled = false
    ∧ c.p2pJingleSession = none
    ∧ c.deferredStartP2PTask = none
    ∧ c.forceInitiator = false
    ∧ c.forceResponder = false
    ∧ c.participants = [peer]
    ∧ _shouldBeInP2PMode c = true

/-- Under `P2PStartReady` the topology pass initiates toward the single peer
exactly when the local user id is lexicographically smaller than the peer's
id, whatever triggered the pass. -/
theorem initiatesP2PToward_eq_jsStrLt (c : JitsiConference) (peer : JitsiParticipant)
    (u : Bool) (h : P2PStartReady c peer) :
    initiatesP2PToward c u peer.getJid = jsStrLt c.myUserId peer.getId := by
  obtain ⟨h1, h2, h3, h4, h5, h6, h7, h8, h9, h10⟩ := h
  by_cases hgt : jsStrLt peer.getId c.myUserId = true
  · have hlt : jsStrLt c.myUserId peer.getId = false := jsStrLt_asymm _ _ hgt
    simp [initiatesP2PToward, _maybeStartOrStopP2P, getParticipants,
      h1, h2, h3, h4, h5, h6, h7, h8, h9, h10, hgt, hlt]
  · have hgt' : jsStrLt peer.getId c.myUserId = false := by
      cases hval : jsStrLt peer.getId c.myUserId
      · rfl
      · exact absurd hval hgt
    by_cases heq : c.myUserId = peer.getId
    · have hlt : jsStrLt c.myUserId peer.getId = false := by
        rw [heq]; exact jsStrLt_irrefl _
      simp [initiatesP2PToward, _maybeStartOrStopP2P, getParticipants, jsStrLt_irrefl,
        h1, h2, h3, h4, h5, h6, h7, h8, h9, h10, hgt', heq, hlt]
    · have hlt : jsStrLt c.myUserId peer.getId = true := by
        rcases jsStrLt_total c.myUserId peer.getId heq with hx | hx
        · exact hx
        · exact absurd hx (by simp [hgt'])
      cases u
      · simp [initiatesP2PToward, _maybeStartOrStopP2P, getParticipants, _startP2PSession,
          _maybeClearDeferredStartP2P, newP2PJingleSession, isInitiateEffect,
          h1, h2, h3, h4, h5, h6, h7, h8, h9, h10, hgt', heq, hlt]
      · simp [initiatesP2PToward, _maybeStartOrStopP2P, getParticipants, isInitiateEffect,
          h1, h2, h3, h4, h5, h6, h7, h8, h9, h10, hgt', heq, hlt]

/-- C1: when a new P2P session could start on both endpoints (no existing
session, should-be-P2P, no forced flags), each endpoint invites its single
remote peer iff its own user id is lexicographically smaller than the
peer's; consequently for distinct ids exactly one of the two endpoints
initiates, and for equal ids neither endpoint initiates. -/
theorem C1_leader_election_symmetric (cA cB : JitsiConference)
    (pA pB : JitsiParticipant) (uA uB : Bool)
    (hA : P2PStartReady cA pB) (hB : P2PStartReady cB pA)
    (hidB : pB.getId = cB.myUserId) (hidA : pA.getId = cA.myUserId) :
    (initiatesP2PToward cA uA pB.getJid = jsStrLt cA.myUserId cB.myUserId)
    ∧ (cA.myUserId ≠ cB.myUserId →
        (initiatesP2PToward cA uA pB.getJid = true
          ∧ initiatesP2PToward cB uB pA.getJid = false)
        ∨ (initiatesP2PToward cA uA pB.getJid = false
          ∧ initiatesP2PToward cB uB pA.getJid = true))
    ∧ (cA.myUserId = cB.myUserId →
        initiatesP2PToward cA uA pB.getJid = false
          ∧ initiatesP2PToward cB uB pA.getJid = false) := by
  have hAeq : initiatesP2PToward cA uA pB.getJid = jsStrLt cA.myUserId cB.myUserId := by
    rw [initiatesP2PToward_eq_jsStrLt cA pB uA hA, hidB]
  have hBeq : initiatesP2PToward cB uB pA.getJid = jsStrLt cB.myUserId cA.myUserId := by
    rw [initiatesP2PToward_eq_jsStrLt cB pA uB hB, hidA]
  refine ⟨hAeq, ?_, ?_⟩
  · intro hne
    rcases jsStrLt_total cA.myUserId cB.myUserId hne with hx | hx
    · left
      exact ⟨by rw [hAeq, hx], by rw [hBeq]; exact jsStrLt_asymm _ _ hx⟩
    · right
      exact ⟨by rw [hAeq]; exact jsStrLt_asymm _ _ hx, by rw [hBeq, hx]⟩
  · intro heqId
    constructor
    · rw [hAeq, heqId]; exact jsStrLt_irrefl _
    · rw [hBeq, heqId]; exact jsStrLt_irrefl _

/-- C2: `_shouldBeInP2PMode` holds iff the roster has exactly one remote
participant, no participant is a poltergeist bot or has the jigasi feature,
the conference has no visitors, and transcription is not enabled. -/
theorem C2_shouldBeInP2PMode_characterization (c : JitsiConference) :
    _shouldBeInP2PMode c = true ↔
      (c.participants.length = 1
        ∧ (∀ p ∈ c.participants,
            p.getBotType ≠ some poltergeistBotType ∧ p.hasFeature FEATURE_JIGASI = false)
        ∧ c.hasVisitors = false
        ∧ c.transcribingEnabled = false) := by
  simp only [_shouldBeInP2PMode, getParticipants, Bool.and_eq_true, Bool.not_eq_true',
    List.any_eq_false, Nat.beq_eq_true_eq]
  constructor
  · rintro ⟨⟨⟨⟨hlen, hbot⟩, hv⟩, _⟩, ht⟩
    refine ⟨hlen, ?_, hv, ht⟩
    intro p hp
    have hb := hbot p hp
    simp only [Bool.or_eq_true, beq_iff_eq, not_or] at hb
    exact ⟨hb.1, by simpa using hb.2⟩
  · rintro ⟨hlen, hbot, hv, ht⟩
    refine ⟨⟨⟨⟨hlen, ?_⟩, hv⟩, hv⟩, ht⟩
    intro p hp
    have hb := hbot p hp
    simp only [Bool.or_eq_true, beq_iff_eq, not_or]
    exact ⟨hb.1, by simpa using hb.2⟩

/-- C3: an ICE failure of the current P2P session never schedules an ICE
restart; the session is terminated with reason `connectivity-error` in the
same synchronous pass and the session reference is nulled, and when the P2P
connection had been established while a bridge session is present, bridge
media transfer is resumed and the bridge remote tracks are re-added. -/
theorem C3_p2p_ice_failure_falls_back (c : JitsiConference) (s : JingleSessionPC) (jitter : ℚ)
    (hP2P : s.isP2P = true) (hSess : c.p2pJingleSession = some s) :
    (∀ d, Effect.scheduleIceRestart d ∉ (_onIceConnectionFailed c s jitter).2)
    ∧ (∀ sid, Effect.startIceFailedHandling sid ∉ (_onIceConnectionFailed c s jitter).2)
    ∧ (_onIceConnectionFailed c s jitter).1.p2pJingleSession = none
    ∧ (∃ st, Effect.terminateP2PSession JingleReason.connectivityError st
        ∈ (_onIceConnectionFailed c s jitter).2)
    ∧ (isP2PActive c = true → c.jvbJingleSession.isSome = true →
        Effect.setJvbMediaTransferActive true ∈ (_onIceConnectionFailed c s jitter).2
          ∧ Effect.addRemoteJVBTracks ∈ (_onIceConnectionFailed c s jitter).2) := by
  cases hp : c.p2p <;>
    cases hjvb : c.jvbJingleSession.isSome <;>
      simp [_onIceConnectionFailed, _stopP2PSession, _setP2PStatus, isP2PActive,
        hP2P, hSess, hp, hjvb]

/-- C4: an ICE failure of the current bridge session schedules exactly one
delayed ICE restart with the jittered exponentially growing delay while the
restart counter is below `MAX_CONNECTION_RETRIES` (the scheduled callback
increments the counter when it fires), and once the counter has reached the
maximum it emits exactly one fatal `CONFERENCE_FAILED`/`ICE_FAILED` signal
and schedules nothing; the pre-jitter base of the delay is non-decreasing in
the attempt number. -/
theorem C4_jvb_ice_failure_backoff (c : JitsiConference) (s : JingleSessionPC) (jitter : ℚ)
    (hNotP2P : s.isP2P = false) (hSess : c.jvbJingleSession = some s) :
    (c.iceRestarts < MAX_CONNECTION_RETRIES →
      (_onIceConnectionFailed c s jitter).2
          = [Effect.scheduleIceRestart (getJitterDelay c.iceRestarts 1000 jitter)]
        ∧ (_fireDelayedIceFailed (_onIceConnectionFailed c s jitter).1 s).1.iceRestarts
            = c.iceRestarts + 1)
    ∧ (¬ c.iceRestarts < MAX_CONNECTION_RETRIES →
        (_onIceConnectionFailed c s jitter).2
            = [Effect.emitConferenceFailed ConferenceError.iceFailed]
          ∧ ∀ d, Effect.scheduleIceRestart d ∉ (_onIceConnectionFailed c s jitter).2)
    ∧ (0 ≤ jitter → ∀ r₁ r₂ : Nat, r₁ ≤ r₂ →
        getJitterDelay r₁ 1000 jitter ≤ getJitterDelay r₂ 1000 jitter) := by
  refine ⟨?_, ?_, ?_⟩
  · intro hlt
    constructor
    · simp [_onIceConnectionFailed, hNotP2P, hSess, hlt]
    · simp [_onIceConnectionFailed, _fireDelayedIceFailed, hNotP2P, hSess, hlt]
  · intro hge
    constructor
    · simp [_onIceConnectionFailed, hNotP2P, hSess, hge]
    · simp [_onIceConnectionFailed, hNotP2P, hSess, hge]
  · intro hj r₁ r₂ hr
    unfold getJitterDelay
    have hpow : (2 : ℚ) ^ r₁ ≤ 2 ^ r₂ :=
      pow_le_pow_right₀ (by norm_num) hr
    have hbase : (1000 : ℚ) * 2 ^ r₁ ≤ 1000 * 2 ^ r₂ := by
      nlinarith
    nlinarith

/-- C6: when ICE connects on the stored P2P session while a bridge session
is present, the conference enters P2P mode (`isP2PActive` becomes true),
removes the bridge remote tracks, adds the P2P remote tracks and suspends
bridge media transfer, while the bridge session object is neither closed nor
terminated and stays stored. -/
theorem C6_p2p_established_switchover (c : JitsiConference) (s j : JingleSessionPC)
    (hP2P : s.isP2P = true) (hSess : c.p2pJingleSession = some s)
    (hJvb : c.jvbJingleSession = some j) :
    isP2PActive (_onIceConnectionEstablished c s).1 = true
    ∧ (_onIceConnectionEstablished c s).1.jvbJingleSession = some j
    ∧ Effect.removeRemoteJVBTracks ∈ (_onIceConnectionEstablished c s).2
    ∧ Effect.addRemoteP2PTracks ∈ (_onIceConnectionEstablished c s).2
    ∧ Effect.setJvbMediaTransferActive false ∈ (_onIceConnectionEstablished c s).2
    ∧ (∀ sid, Effect.closeSession sid ∉ (_onIceConnectionEstablished c s).2)
    ∧ (∀ r st, Effect.terminateP2PSession r st ∉ (_onIceConnectionEstablished c s).2) := by
  cases hp : c.p2p <;>
    simp [_onIceConnectionEstablished, _setP2PStatus, isP2PActive, hP2P, hSess, hJvb, hp]

/-- Empty signaling-layer state for concrete evaluations. -/
def exampleSignalingEmpty : SignalingLayerState := { muteStatus := [], videoTypeOf := [] }

/-- The code units of the id `aaa`. -/
def exampleIdA : List Nat := [97, 97, 97]

/-- The code units of the id `bbb`. -/
def exampleIdB : List Nat := [98, 98, 98]

/-- The code units of the id `ccc`. -/
def exampleIdC : List Nat := [99, 99, 99]

/-- A full MUC JID (`m@m/` followed by the id's code units). -/
def exampleJidOf (id : List Nat) : List Nat := [109, 64, 109, 47] ++ id

/-- A plain remote participant with the given id. -/
def exampleParticipant (id : List Nat) : JitsiParticipant :=
  { pid := id
    pjid := exampleJidOf id
    botType := none
    features := []
    hidden := false }

/-- A P2P Jingle session toward the participant with id `bbb`. -/
def exampleP2PSession : JingleSessionPC :=
  { sid := 1
    isP2P := true
    isInitiator := true
    remoteJid := exampleJidOf exampleIdB
    localTracks := [] }

/-- A JVB Jingle session. -/
def exampleJvbSession : JingleSessionPC :=
  { sid := 2
    isP2P := false
    isInitiator := false
    remoteJid := [102, 111, 99, 117, 115]
    localTracks := [] }

/-- Baseline conference state: local id `aaa`, one remote peer `bbb`, P2P
enabled, nothing pending. -/
def exampleBaseConf : JitsiConference :=
  { myUserId := exampleIdA
    participants := [exampleParticipant exampleIdB]
    p2pJingleSession := none
    jvbJingleSession := none
    p2p := false
    isP2PConnectionInterrupted := false
    isJvbConnectionInterrupted := false
    deferredStartP2PTask := none
    sessionInitiateTimeout := false
    delayedIceFailed := none
    iceRestarts := 0
    hasVisitors := false
    transcribingEnabled := false
    backToP2PDelay := 5
    p2pConfigEnabled := true
    p2pTestMode := false
    isFirefoxBrowser := false
    firefoxP2pEnabled := true
    e2eeEnabled := false
    forceInitiator := false
    forceResponder := false
    allowMultipleTracks := false
    roomJoined := true
    focusMembers := [(exampleJidOf [102], true)]
    signalingLayer := exampleSignalingEmpty
    rtcLocalTracks := []
    nextSessionId := 10 }

/-- Conference in established P2P with peers `bbb` and `ccc` on the roster:
the state right after a third participant joined. -/
def exampleConfThirdJoined : JitsiConference :=
  { exampleBaseConf with
      participants := [exampleParticipant exampleIdB, exampleParticipant exampleIdC]
      p2pJingleSession := some exampleP2PSession
      jvbJingleSession := some exampleJvbSession
      p2p := true }

/-- C5 counterexample: with an established P2P session and a freshly joined
third participant, the topology pass stops the P2P session immediately in
the same pass — it terminates the session, schedules no deferred task and
leaves no deferred switch timer — refuting the claim that the switch to the
bridge is deferred by the configurable delay. -/
theorem C5_counterexample :
    (_maybeStartOrStopP2P exampleConfThirdJoined false).2
        = [Effect.setJvbMediaTransferActive true, Effect.removeRemoteP2PTracks,
           Effect.terminateP2PSession JingleReason.success true,
           Effect.emitP2PStatusChanged false, Effect.addRemoteJVBTracks]
    ∧ (_maybeStartOrStopP2P exampleConfThirdJoined false).1.deferredStartP2PTask = none
    ∧ ∀ jid d, Effect.deferP2PStart jid d
        ∉ (_maybeStartOrStopP2P exampleConfThirdJoined false).2 := by
  have hl : (_maybeStartOrStopP2P exampleConfThirdJoined false).2
      = [Effect.setJvbMediaTransferActive true, Effect.removeRemoteP2PTracks,
         Effect.terminateP2PSession JingleReason.success true,
         Effect.emitP2PStatusChanged false, Effect.addRemoteJVBTracks] := by decide
  refine ⟨hl, by decide, ?_⟩
  intro jid d hmem
  rw [hl] at hmem
  simp at hmem

/-- Guard of `_maybeStartOrStopP2P`: automatic P2P handling is available. -/
def AutoP2PAvailable (c : JitsiConference) : Prop :=
  isP2PEnabled c = true
    ∧ isP2PTestModeEnabled c = false
    ∧ (c.isFirefoxBrowser && !c.firefoxP2pEnabled) = false
    ∧ c.e2eeEnabled = false

/-- C5 amended: when an existing P2P session should no longer run, the
topology pass stops it immediately in the same pass and defers nothing; the
configurable `backToP2PDelay` instead defers the start of a new P2P session
when the pass is triggered by a user-left event, and a pending deferred
start task is cancelled when the 2-peer condition becomes false again before
it fires. -/
theorem C5_amended_stop_immediate_start_deferred (c : JitsiConference) (s : JingleSessionPC)
    (peer : JitsiParticipant) (task : DeferredStartP2P) (u : Bool) :
    (AutoP2PAvailable c → c.p2pJingleSession = some s → _shouldBeInP2PMode c = false →
      (∃ st, Effect.terminateP2PSession JingleReason.success st ∈ (_maybeStartOrStopP2P c u).2)
        ∧ (∀ jid d, Effect.deferP2PStart jid d ∉ (_maybeStartOrStopP2P c u).2)
        ∧ (_maybeStartOrStopP2P c u).1.p2pJingleSession = none)
    ∧ (P2PStartReady c peer → jsStrLt c.myUserId peer.getId = true →
        (_maybeStartOrStopP2P c true).1.deferredStartP2PTask
            = some { jid := peer.getJid, delaySeconds := c.backToP2PDelay }
          ∧ Effect.deferP2PStart peer.getJid c.backToP2PDelay ∈ (_maybeStartOrStopP2P c true).2
          ∧ (∀ jid, Effect.inviteP2P jid ∉ (_maybeStartOrStopP2P c true).2))
    ∧ (AutoP2PAvailable c → c.deferredStartP2PTask = some task →
        _shouldBeInP2PMode c = false →
        (_maybeStartOrStopP2P c u).1.deferredStartP2PTask = none
          ∧ Effect.clearDeferredStartP2P ∈ (_maybeStartOrStopP2P c u).2) := by
  refine ⟨?_, ?_, ?_⟩
  · rintro ⟨h1, h2, h3, h4⟩ hSess hShould
    cases hdef : c.deferredStartP2PTask <;>
      cases hp : c.p2p <;>
        cases hjvb : c.jvbJingleSession <;>
          simp [_maybeStartOrStopP2P, _stopP2PSession, _setP2PStatus,
            _maybeClearDeferredStartP2P, isP2PActive,
            h1, h2, h3, h4, hSess, hShould, hdef, hp, hjvb]
  · rintro ⟨h1, h2, h3, h4, h5, h6, h7, h8, h9, h10⟩ hlt
    have hgt : jsStrLt peer.getId c.myUserId = false := jsStrLt_asymm _ _ hlt
    have hne : ¬ c.myUserId = peer.getId := by
      intro hcontra
      rw [hcontra] at hlt
      rw [jsStrLt_irrefl] at hlt
      exact Bool.false_ne_true hlt
    simp [_maybeStartOrStopP2P, getParticipants,
      h1, h2, h3, h4, h5, h6, h7, h8, h9, h10, hgt, hne]
  · rintro ⟨h1, h2, h3, h4⟩ hdef hShould
    cases hSess : c.p2pJingleSession <;>
      cases hp : c.p2p <;>
        cases hjvb : c.jvbJingleSession <;>
          simp [_maybeStartOrStopP2P, _stopP2PSession, _setP2PStatus,
            _maybeClearDeferredStartP2P, isP2PActive,
            h1, h2, h3, h4, hdef, hShould, hSess, hp, hjvb]

/-- C7: every protocol-violating incoming session-initiate is handled by
terminating the offending session with the appropriate reason, leaving the
conference state unchanged and emitting no conference-fatal signal: a P2P
offer in a different SDP mode, a P2P offer while P2P is unavailable, a
duplicate P2P offer (reason `busy`), a P2P offer while the conference should
not be in P2P mode, and a bridge offer from a sender that is not the focus
(reason `security-error`). -/
theorem C7_incoming_call_rejections (c : JitsiConference) (s : JingleSessionPC)
    (offer : JingleOffer) :
    (s.isP2P = true →
      (offer.contentName == contentNameZero || offer.contentName == contentNameOne) = false →
      onIncomingCall c s offer
        = (c, [Effect.terminateIncomingSession s.sid JingleReason.decline]))
    ∧ (s.isP2P = true →
        (offer.contentName == contentNameZero || offer.contentName == contentNameOne) = true →
        ((!(isP2PEnabled c) && !(isP2PTestModeEnabled c))
          || (c.isFirefoxBrowser && !c.firefoxP2pEnabled)) = true →
        onIncomingCall c s offer
          = (c, [Effect.terminateIncomingSession s.sid JingleReason.decline]))
    ∧ (s.isP2P = true →
        (offer.contentName == contentNameZero || offer.contentName == contentNameOne) = true →
        ((!(isP2PEnabled c) && !(isP2PTestModeEnabled c))
          || (c.isFirefoxBrowser && !c.firefoxP2pEnabled)) = false →
        c.p2pJingleSession.isSome = true →
        onIncomingCall c s offer
          = (c, [Effect.terminateIncomingSession s.sid JingleReason.busy]))
    ∧ (s.isP2P = true →
        (offer.contentName == contentNameZero || offer.contentName == contentNameOne) = true →
        ((!(isP2PEnabled c) && !(isP2PTestModeEnabled c))
          || (c.isFirefoxBrowser && !c.firefoxP2pEnabled)) = false →
        c.p2pJingleSession = none →
        _shouldBeInP2PMode c = false →
        onIncomingCall c s offer
          = (c, [Effect.terminateIncomingSession s.sid JingleReason.decline]))
    ∧ (s.isP2P = false →
        (isFocus c s.remoteJid == some true) = false →
        onIncomingCall c s offer
          = (c, [Effect.terminateIncomingSession s.sid JingleReason.securityError])) := by
  refine ⟨?_, ?_, ?_, ?_, ?_⟩
  · intro hP2P hPlan
    simp [onIncomingCall, _onIncomingCallP2P, _rejectIncomingCall, hP2P, hPlan]
  · intro hP2P hPlan hDisabled
    simp [onIncomingCall, _onIncomingCallP2P, _rejectIncomingCall, hP2P, hPlan, hDisabled]
  · intro hP2P hPlan hEnabled hDup
    simp [onIncomingCall, _onIncomingCallP2P, _rejectIncomingCall,
      hP2P, hPlan, hEnabled, hDup]
  · intro hP2P hPlan hEnabled hNone hNot
    simp [onIncomingCall, _onIncomingCallP2P, _rejectIncomingCall,
      hP2P, hPlan, hEnabled, hNone, hNot]
  · intro hNotP2P hFocus
    simp [onIncomingCall, _rejectIncomingCall, hNotP2P, hFocus]

/-- The presence loop leaves the state alone and reports no change when the
signaling layer already advertises every track's mute status and video
type. -/
theorem _updateRoomPresenceLoop_no_change (tracks : List JitsiLocalTrack)
    (c : JitsiConference)
    (h : ∀ t ∈ tracks,
      c.signalingLayer.muteStatus.lookup t.getSourceName = some t.isMuted
      ∧ (t.getType = MediaType.video →
          c.signalingLayer.videoTypeOf.lookup t.getSourceName = some t.getVideoType)) :
    _updateRoomPresenceLoop c tracks false false false = (c, false) := by
  induction tracks with
  | nil => rfl
  | cons t rest ih =>
    obtain ⟨⟨hm, hv⟩, hrest⟩ := List.forall_mem_cons.mp h
    have hmute : _setTrackMuteStatus c t t.muted = (c, false) := by
      simp [_setTrackMuteStatus, SignalingLayerState.setTrackMuteStatus,
        JitsiLocalTrack.isMuted] at hm ⊢
      simp [hm]
    by_cases hvid : t.getType = MediaType.video
    · have hvideo : _setNewVideoType c t = (c, false) := by
        simp [_setNewVideoType, SignalingLayerState.setTrackVideoType] at hv ⊢
        simp [hv hvid]
      simp only [_updateRoomPresenceLoop, JitsiLocalTrack.isMuted]
      rw [hmute]
      simp only [hvid, if_true, reduceIte]
      rw [hvideo]
      simpa using ih hrest
    · simp only [_updateRoomPresenceLoop, JitsiLocalTrack.isMuted]
      rw [hmute]
      simp only [hvid, if_false, reduceIte]
      simpa using ih hrest

/-- C8: the update-room-presence pass is idempotent per context object: the
first call marks the context as skipped, any second call with the returned
context sends nothing and changes nothing, and a presence packet is sent
only when the advertised mute status or video type of some local track
actually changed. -/
theorem C8_updateRoomPresence_idempotent (c : JitsiConference) (s : JingleSessionPC)
    (ctx : PresenceUpdateCtx) (hskip : ctx.skip = false) :
    (_updateRoomPresence c (some s) (some ctx)).2.1 = some { skip := true }
    ∧ (∀ c2 s2, _updateRoomPresence c2 (some s2)
        ((_updateRoomPresence c (some s) (some ctx)).2.1)
        = (c2, (_updateRoomPresence c (some s) (some ctx)).2.1, []))
    ∧ ((∀ t ∈ s.localTracks,
          c.signalingLayer.muteStatus.lookup t.getSourceName = some t.isMuted
          ∧ (t.getType = MediaType.video →
              c.signalingLayer.videoTypeOf.lookup t.getSourceName = some t.getVideoType)) →
        (_updateRoomPresence c (some s) (some ctx)).2.2 = []) := by
  have hctx : (_updateRoomPresence c (some s) (some ctx)).2.1 = some { skip := true } := by
    simp [_updateRoomPresence, hskip]
  refine ⟨hctx, ?_, ?_⟩
  · intro c2 s2
    rw [hctx]
    rfl
  · intro hmatch
    have hloop := _updateRoomPresenceLoop_no_change s.localTracks c hmatch
    simp [_updateRoomPresence, hskip, hloop]

/-- Conference with every timer pending: a deferred start-P2P task, delayed
ICE-failed handling, a session-initiate timeout, no JVB session and three
participants in total. -/
def exampleConfPendingTimers : JitsiConference :=
  { exampleBaseConf with
      participants := [exampleParticipant exampleIdB, exampleParticipant exampleIdC]
      deferredStartP2PTask := some { jid := exampleJidOf exampleIdB, delaySeconds := 5 }
      delayedIceFailed := some false
      sessionInitiateTimeout := true
      p2pJingleSession := some exampleP2PSession }

/-- C9 counterexample: leaving a conference that has a pending deferred
start-P2P task does not cancel that task (and, with no bridge session and
three participants, does not clear the session-initiate timeout either),
refuting the claim that `leave()` cancels every pending timer. -/
theorem C9_counterexample :
    (leave exampleConfPendingTimers).1.deferredStartP2PTask
        = some { jid := exampleJidOf exampleIdB, delaySeconds := 5 }
    ∧ (leave exampleConfPendingTimers).1.sessionInitiateTimeout = true
    ∧ (leave exampleConfPendingTimers).1.p2pJingleSession = none := by
  refine ⟨by decide, by decide, by decide⟩

/-- C9 amended: `leave()` closes both media sessions leaving both references
null, cancels the delayed ICE-failed handling when present, and clears the
session-initiate timeout only when a bridge session exists or fewer than two
participants remain; the deferred start-P2P task is left untouched. -/
theorem leave_eq (c : JitsiConference) :
    leave c
      = ({ c with
            delayedIceFailed := c.delayedIceFailed.map (fun _ => true)
            sessionInitiateTimeout :=
              if c.sessionInitiateTimeout
                  && (c.jvbJingleSession.isSome || decide (getParticipantCount c false < 2))
                then false else c.sessionInitiateTimeout
            jvbJingleSession := none
            p2pJingleSession := none
            roomJoined := false },
         (if c.delayedIceFailed.isSome then [Effect.cancelDelayedIceFailed] else [])
           ++ (if c.sessionInitiateTimeout
                  && (c.jvbJingleSession.isSome || decide (getParticipantCount c false < 2))
                then [Effect.clearSessionInitiateTimeout] else [])
           ++ (match c.jvbJingleSession with
                | some s => [Effect.closeSession s.sid]
                | none => [])
           ++ (match c.p2pJingleSession with
                | some s => [Effect.closeSession s.sid]
                | none => [])
           ++ (if c.roomJoined then [Effect.roomLeave] else [])) := by
  cases c with
  | mk myUserId participants p2pSess jvbSess p2p iP2Pint iJvbInt deferredTask siTimeout
      delayedIce iceRestarts hasVisitors transcribing backToP2P p2pCfg p2pTest ffox ffoxP2P
      e2ee fInit fResp allowMulti roomJoined focusMembers signaling rtcTracks nextSid =>
    cases delayedIce <;>
      cases jvbSess <;>
        cases p2pSess <;>
          cases roomJoined <;>
            cases siTimeout <;>
              simp [leave, _maybeClearSITimeout, getParticipantCount, getParticipants,
                apply_ite] <;>
                split_ifs <;> simp_all

/-- C9 amended: `leave()` closes both media sessions leaving both references
null, cancels the delayed ICE-failed handling when present, and clears the
session-initiate timeout only when a bridge session exists or fewer than two
participants remain; the deferred start-P2P task is left untouched. -/
theorem C9_amended_leave_cleanup (c : JitsiConference) :
    (leave c).1.jvbJingleSession = none
    ∧ (leave c).1.p2pJingleSession = none
    ∧ (c.delayedIceFailed.isSome = true →
        (leave c).1.delayedIceFailed = some true
          ∧ Effect.cancelDelayedIceFailed ∈ (leave c).2)
    ∧ (leave c).1.deferredStartP2PTask = c.deferredStartP2PTask
    ∧ (c.sessionInitiateTimeout = true →
        (c.jvbJingleSession.isSome = true ∨ getParticipantCount c false < 2) →
        (leave c).1.sessionInitiateTimeout = false) := by
  rw [leave_eq]
  refine ⟨rfl, rfl, ?_, rfl, ?_⟩
  · intro hice
    cases hval : c.delayedIceFailed with
    | none => rw [hval] at hice; simp at hice
    | some b => simp [hval]
  · intro hsi hcond
    have hb : (c.sessionInitiateTimeout
        && (c.jvbJingleSession.isSome || decide (getParticipantCount c false < 2))) = true := by
      rcases hcond with h | h <;> simp [hsi, h]
    simp [hb]

/-- C10: `addTrack` on the conference's existing local track of a media type
resolves immediately with that track, with no renegotiation effect and no
presence update and an unchanged state, while a distinct second track of the
same type goes through the add-or-reject logic instead. -/
theorem C10_addTrack_idempotent (c : JitsiConference) (track track2 : JitsiLocalTrack)
    (rest : List JitsiLocalTrack)
    (hHead : getLocalTracksOfType c track.getType = track :: rest) :
    addTrack c track = (c, AddTrackResult.resolvedSameTrack track, [])
    ∧ (track2.getType = track.getType → track2 ≠ track →
        (addTrack c track2).2.1 = AddTrackResult.addedSecondTrack
          ∨ (addTrack c track2).2.1 = AddTrackResult.rejectedSecondTrack) := by
  constructor
  · simp [addTrack, hHead]
  · intro hty hne
    have hHead2 : getLocalTracksOfType c track2.getType = track :: rest := by
      rw [hty, hHead]
    simp only [addTrack, hHead2]
    rw [if_neg hne]
    split
    · left; rfl
    · right; rfl

/-- Conference whose local id `bbb` is the lexicographically larger one,
with peer `aaa`. -/
def exampleConfHigher : JitsiConference :=
  { exampleBaseConf with
      myUserId := exampleIdB
      participants := [exampleParticipant exampleIdA] }

/-- Conference with only a JVB session established. -/
def exampleConfJvbOnly : JitsiConference :=
  { exampleBaseConf with jvbJingleSession := some exampleJvbSession }

/-- An offer whose first content name is not a unified-plan MID. -/
def examplePlanBOffer : JingleOffer := { contentName := "sdparta_0" }

/-- A local camera video track. -/
def exampleLocalTrack : JitsiLocalTrack :=
  { tid := 7
    mediaType := MediaType.video
    videoType := VideoType.camera
    sourceName := "aaa-v0"
    muted := false }

/-- A second, distinct local video track (desktop). -/
def exampleLocalTrackTwo : JitsiLocalTrack :=
  { tid := 8
    mediaType := MediaType.video
    videoType := VideoType.desktop
    sourceName := "aaa-v1"
    muted := false }

/-- A JVB session whose peer connection holds one local track. -/
def exampleSessionWithTracks : JingleSessionPC :=
  { exampleJvbSession with localTracks := [exampleLocalTrack] }

/-- Conference whose RTC registry holds one local video track. -/
def exampleConfWithTrack : JitsiConference :=
  { exampleBaseConf with rtcLocalTracks := [exampleLocalTrack] }

/-- Witness for C1 at the ids `aaa` and `bbb`. -/
theorem C1_leader_election_symmetric_witness :
    P2PStartReady exampleBaseConf (exampleParticipant exampleIdB)
    ∧ P2PStartReady exampleConfHigher (exampleParticipant exampleIdA)
    ∧ ((initiatesP2PToward exampleBaseConf false (exampleParticipant exampleIdB).getJid
          = jsStrLt exampleBaseConf.myUserId exampleConfHigher.myUserId)
      ∧ (exampleBaseConf.myUserId ≠ exampleConfHigher.myUserId →
          (initiatesP2PToward exampleBaseConf false (exampleParticipant exampleIdB).getJid = true
            ∧ initiatesP2PToward exampleConfHigher false
                (exampleParticipant exampleIdA).getJid = false)
          ∨ (initiatesP2PToward exampleBaseConf false
                (exampleParticipant exampleIdB).getJid = false
            ∧ initiatesP2PToward exampleConfHigher false
                (exampleParticipant exampleIdA).getJid = true))
      ∧ (exampleBaseConf.myUserId = exampleConfHigher.myUserId →
          initiatesP2PToward exampleBaseConf false (exampleParticipant exampleIdB).getJid = false
            ∧ initiatesP2PToward exampleConfHigher false
                (exampleParticipant exampleIdA).getJid = false)) := by
  have hA : P2PStartReady exampleBaseConf (exampleParticipant exampleIdB) := by
    unfold P2PStartReady
    decide
  have hB : P2PStartReady exampleConfHigher (exampleParticipant exampleIdA) := by
    unfold P2PStartReady
    decide
  exact ⟨hA, hB,
    C1_leader_election_symmetric exampleBaseConf exampleConfHigher
      (exampleParticipant exampleIdA) (exampleParticipant exampleIdB) false false
      hA hB (by decide) (by decide)⟩

/-- Witness for C3 at a conference in established P2P with a bridge
session present. -/
theorem C3_p2p_ice_failure_falls_back_witness :
    exampleP2PSession.isP2P = true
    ∧ exampleConfThirdJoined.p2pJingleSession = some exampleP2PSession
    ∧ ((∀ d, Effect.scheduleIceRestart d
          ∉ (_onIceConnectionFailed exampleConfThirdJoined exampleP2PSession 0).2)
      ∧ (∀ sid, Effect.startIceFailedHandling sid
          ∉ (_onIceConnectionFailed exampleConfThirdJoined exampleP2PSession 0).2)
      ∧ (_onIceConnectionFailed exampleConfThirdJoined exampleP2PSession 0).1.p2pJingleSession
          = none
      ∧ (∃ st, Effect.terminateP2PSession JingleReason.connectivityError st
          ∈ (_onIceConnectionFailed exampleConfThirdJoined exampleP2PSession 0).2)
      ∧ (isP2PActive exampleConfThirdJoined = true →
          exampleConfThirdJoined.jvbJingleSession.isSome = true →
          Effect.setJvbMediaTransferActive true
              ∈ (_onIceConnectionFailed exampleConfThirdJoined exampleP2PSession 0).2
            ∧ Effect.addRemoteJVBTracks
              ∈ (_onIceConnectionFailed exampleConfThirdJoined exampleP2PSession 0).2)) :=
  ⟨by decide, by decide,
    C3_p2p_ice_failure_falls_back exampleConfThirdJoined exampleP2PSession 0
      (by decide) (by decide)⟩

/-- Witness for C4 at a conference holding only a bridge session with zero
restarts so far. -/
theorem C4_jvb_ice_failure_backoff_witness :
    exampleJvbSession.isP2P = false
    ∧ exampleConfJvbOnly.jvbJingleSession = some exampleJvbSession
    ∧ ((exampleConfJvbOnly.iceRestarts < MAX_CONNECTION_RETRIES →
        (_onIceConnectionFailed exampleConfJvbOnly exampleJvbSession 0).2
            = [Effect.scheduleIceRestart
                (getJitterDelay exampleConfJvbOnly.iceRestarts 1000 0)]
          ∧ (_fireDelayedIceFailed
              (_onIceConnectionFailed exampleConfJvbOnly exampleJvbSession 0).1
              exampleJvbSession).1.iceRestarts
            = exampleConfJvbOnly.iceRestarts + 1)
      ∧ (¬ exampleConfJvbOnly.iceRestarts < MAX_CONNECTION_RETRIES →
          (_onIceConnectionFailed exampleConfJvbOnly exampleJvbSession 0).2
              = [Effect.emitConferenceFailed ConferenceError.iceFailed]
            ∧ ∀ d, Effect.scheduleIceRestart d
                ∉ (_onIceConnectionFailed exampleConfJvbOnly exampleJvbSession 0).2)
      ∧ ((0 : ℚ) ≤ 0 → ∀ r₁ r₂ : Nat, r₁ ≤ r₂ →
          getJitterDelay r₁ 1000 0 ≤ getJitterDelay r₂ 1000 0)) :=
  ⟨by decide, by decide,
    C4_jvb_ice_failure_backoff exampleConfJvbOnly exampleJvbSession 0
      (by decide) (by decide)⟩

/-- Witness for C5 at the conference where a third participant just
joined an established P2P call. -/
theorem C5_amended_stop_immediate_start_deferred_witness :
    AutoP2PAvailable exampleConfThirdJoined
    ∧ exampleConfThirdJoined.p2pJingleSession = some exampleP2PSession
    ∧ _shouldBeInP2PMode exampleConfThirdJoined = false
    ∧ ((∃ st, Effect.terminateP2PSession JingleReason.success st
          ∈ (_maybeStartOrStopP2P exampleConfThirdJoined false).2)
      ∧ (∀ jid d, Effect.deferP2PStart jid d
          ∉ (_maybeStartOrStopP2P exampleConfThirdJoined false).2)
      ∧ (_maybeStartOrStopP2P exampleConfThirdJoined false).1.p2pJingleSession = none) := by
  have hAvail : AutoP2PAvailable exampleConfThirdJoined := by
    unfold AutoP2PAvailable
    decide
  exact ⟨hAvail, by decide, by decide,
    (C5_amended_stop_immediate_start_deferred exampleConfThirdJoined exampleP2PSession
        (exampleParticipant exampleIdB) { jid := exampleIdB, delaySeconds := 5 } false).1
      hAvail (by decide) (by decide)⟩

/-- Witness for C6 at the established-P2P conference with a bridge session
present. -/
theorem C6_p2p_established_switchover_witness :
    exampleP2PSession.isP2P = true
    ∧ exampleConfThirdJoined.p2pJingleSession = some exampleP2PSession
    ∧ exampleConfThirdJoined.jvbJingleSession = some exampleJvbSession
    ∧ (isP2PActive (_onIceConnectionEstablished exampleConfThirdJoined exampleP2PSession).1 = true
      ∧ (_onIceConnectionEstablished exampleConfThirdJoined exampleP2PSession).1.jvbJingleSession
          = some exampleJvbSession
      ∧ Effect.removeRemoteJVBTracks
          ∈ (_onIceConnectionEstablished exampleConfThirdJoined exampleP2PSession).2
      ∧ Effect.addRemoteP2PTracks
          ∈ (_onIceConnectionEstablished exampleConfThirdJoined exampleP2PSession).2
      ∧ Effect.setJvbMediaTransferActive false
          ∈ (_onIceConnectionEstablished exampleConfThirdJoined exampleP2PSession).2
      ∧ (∀ sid, Effect.closeSession sid
          ∉ (_onIceConnectionEstablished exampleConfThirdJoined exampleP2PSession).2)
      ∧ (∀ r st, Effect.terminateP2PSession r st
          ∉ (_onIceConnectionEstablished exampleConfThirdJoined exampleP2PSession).2)) :=
  ⟨by decide, by decide, by decide,
    C6_p2p_established_switchover exampleConfThirdJoined exampleP2PSession exampleJvbSession
      (by decide) (by decide) (by decide)⟩

/-- Witness for C7: a plan-b P2P offer is declined and a bridge offer from a
non-focus sender is rejected with `security-error`. -/
theorem C7_incoming_call_rejections_witness :
    exampleP2PSession.isP2P = true
    ∧ (examplePlanBOffer.contentName == contentNameZero
        || examplePlanBOffer.contentName == contentNameOne) = false
    ∧ onIncomingCall exampleBaseConf exampleP2PSession examplePlanBOffer
        = (exampleBaseConf,
           [Effect.terminateIncomingSession exampleP2PSession.sid JingleReason.decline])
    ∧ exampleJvbSession.isP2P = false
    ∧ (isFocus exampleBaseConf exampleJvbSession.remoteJid == some true) = false
    ∧ onIncomingCall exampleBaseConf exampleJvbSession examplePlanBOffer
        = (exampleBaseConf,
           [Effect.terminateIncomingSession exampleJvbSession.sid JingleReason.securityError]) := by
  refine ⟨by decide, by decide, ?_, by decide, by decide, ?_⟩
  · exact (C7_incoming_call_rejections exampleBaseConf exampleP2PSession examplePlanBOffer).1
      (by decide) (by decide)
  · exact (C7_incoming_call_rejections exampleBaseConf exampleJvbSession
      examplePlanBOffer).2.2.2.2 (by decide) (by decide)

/-- Witness for C8 at a session carrying one local video track and a fresh
context object. -/
theorem C8_updateRoomPresence_idempotent_witness :
    (({ skip := false } : PresenceUpdateCtx)).skip = false
    ∧ ((_updateRoomPresence exampleBaseConf (some exampleSessionWithTracks)
          (some { skip := false })).2.1 = some { skip := true }
      ∧ (∀ c2 s2, _updateRoomPresence c2 (some s2)
          ((_updateRoomPresence exampleBaseConf (some exampleSessionWithTracks)
            (some { skip := false })).2.1)
          = (c2, (_updateRoomPresence exampleBaseConf (some exampleSessionWithTracks)
              (some { skip := false })).2.1, []))
      ∧ ((∀ t ∈ exampleSessionWithTracks.localTracks,
            exampleBaseConf.signalingLayer.muteStatus.lookup t.getSourceName = some t.isMuted
            ∧ (t.getType = MediaType.video →
                exampleBaseConf.signalingLayer.videoTypeOf.lookup t.getSourceName
                  = some t.getVideoType)) →
          (_updateRoomPresence exampleBaseConf (some exampleSessionWithTracks)
            (some { skip := false })).2.2 = [])) :=
  ⟨by decide,
    C8_updateRoomPresence_idempotent exampleBaseConf exampleSessionWithTracks
      { skip := false } (by decide)⟩

/-- Witness for C9 at the conference with every timer pending. -/
theorem C9_amended_leave_cleanup_witness :
    exampleConfPendingTimers.delayedIceFailed.isSome = true
    ∧ ((leave exampleConfPendingTimers).1.jvbJingleSession = none
      ∧ (leave exampleConfPendingTimers).1.p2pJingleSession = none
      ∧ (exampleConfPendingTimers.delayedIceFailed.isSome = true →
          (leave exampleConfPendingTimers).1.delayedIceFailed = some true
            ∧ Effect.cancelDelayedIceFailed ∈ (leave exampleConfPendingTimers).2)
      ∧ (leave exampleConfPendingTimers).1.deferredStartP2PTask
          = exampleConfPendingTimers.deferredStartP2PTask
      ∧ (exampleConfPendingTimers.sessionInitiateTimeout = true →
          (exampleConfPendingTimers.jvbJingleSession.isSome = true
            ∨ getParticipantCount exampleConfPendingTimers false < 2) →
          (leave exampleConfPendingTimers).1.sessionInitiateTimeout = false)) :=
  ⟨by decide, C9_amended_leave_cleanup exampleConfPendingTimers⟩

/-- Witness for C10 at a conference owning exactly one local video track. -/
theorem C10_addTrack_idempotent_witness :
    getLocalTracksOfType exampleConfWithTrack exampleLocalTrack.getType = [exampleLocalTrack]
    ∧ (addTrack exampleConfWithTrack exampleLocalTrack
        = (exampleConfWithTrack, AddTrackResult.resolvedSameTrack exampleLocalTrack, [])
      ∧ (exampleLocalTrackTwo.getType = exampleLocalTrack.getType →
          exampleLocalTrackTwo ≠ exampleLocalTrack →
          (addTrack exampleConfWithTrack exampleLocalTrackTwo).2.1
              = AddTrackResult.addedSecondTrack
            ∨ (addTrack exampleConfWithTrack exampleLocalTrackTwo).2.1
              = AddTrackResult.rejectedSecondTrack)) :=
  ⟨by decide,
    C10_addTrack_idempotent exampleConfWithTrack exampleLocalTrack exampleLocalTrackTwo []
      (by decide)⟩

end LibJitsiMeet
